import Mathlib

/-!
Verification of the Silvereye static-site scripts (src/js/contentLoader.js,
src/js/main.js, src/js/navigation.js) against their specification.

The JavaScript modules are shallowly embedded: JSON/JS values become the
inductive type JSVal, DOM containers become explicit state (lists of rendered
fragments), exceptions become Except / an explicit thrown-with-state outcome,
and the browser fetch is a parameter mapping URLs to outcomes.
-/

namespace Silvereye

/-- A JavaScript/JSON value. Numbers are modelled as integers (no claim here
depends on non-integral numerics). An absent value (undefined) is modelled as
`Option JSVal = none` at use sites, distinct from the constructor null. -/
inductive JSVal where
  | null
  | bool (b : Bool)
  | num (n : Int)
  | str (s : String)
  | arr (elems : List JSVal)
  | obj (fields : List (String × JSVal))
deriving Inhabited

/-- Constructor test for the null value. -/
def JSVal.isNull : JSVal → Bool
  | .null => true
  | _ => false

/-- JavaScript truthiness of a value: null, false, 0 and the empty string are
falsy; every array and object is truthy. -/
def JSVal.truthy : JSVal → Bool
  | .null => false
  | .bool b => b
  | .num n => n != 0
  | .str s => !s.isEmpty
  | .arr _ => true
  | .obj _ => true

/-- Truthiness of a possibly-undefined value: undefined is falsy. -/
def truthyOpt : Option JSVal → Bool
  | none => false
  | some v => v.truthy

/-- Property access v.k on a non-null value: a missing key, or access on a
primitive or an array (for the string keys the scripts use), yields undefined
(none). Object field lists are taken key-unique, as JSON.parse produces.
Access on null throws in JavaScript; call sites model that throw explicitly. -/
def JSVal.access : JSVal → String → Option JSVal
  | .obj fields, k => fields.lookup k
  | _, _ => none

/-- Property access through a possibly-undefined base (used only where the
source has already guarded the base to be truthy, hence non-null). -/
def accessOpt : Option JSVal → String → Option JSVal
  | none, _ => none
  | some v, k => v.access k

mutual

/-- String conversion of a value as JavaScript template interpolation does
(String(v)): null prints as null, arrays join their elements with commas with
null elements blank, objects print as [object Object]. -/
def jsToString : JSVal → String
  | .null => "null"
  | .bool b => cond b "true" "false"
  | .num n => toString n
  | .str s => s
  | .obj _ => "[object Object]"
  | .arr xs => jsArrJoin xs

/-- Comma join of array elements for jsToString, null elements blank. -/
def jsArrJoin : List JSVal → String
  | [] => ""
  | [v] => if v.isNull then "" else jsToString v
  | v :: rest => (if v.isNull then "" else jsToString v) ++ "," ++ jsArrJoin rest

end

/-- Interpolation of a field value into a template: an undefined field prints
as undefined. -/
def jsFieldToString : Option JSVal → String
  | none => "undefined"
  | some v => jsToString v

/-- Embeds the JavaScript idiom x || dflt followed by template interpolation:
the value if truthy, else the default string. -/
def jsStrOrDefault (dflt : String) : Option JSVal → String
  | none => dflt
  | some v => if v.truthy then jsToString v else dflt

/-- The kinds of runtime error the scripts can raise. -/
inductive JsError where
  | typeError
  | referenceError
  | networkError
  | syntaxError
deriving Repr, DecidableEq

/-- Result of the browser response.json() call: it either rejects (malformed
JSON) or yields a parsed value. -/
inductive JsonBody where
  | parseFail
  | parseOk (v : JSVal)

/-- Outcome of fetch for one URL: the promise rejects (network failure) or a
response arrives with an ok flag and a body. -/
inductive FetchOutcome where
  | networkFailure
  | response (ok : Bool) (body : JsonBody)

/-- The try block of ContentLoader.load (contentLoader.js lines 20-29): await
fetch (throws on network failure), return null when response.ok is false,
otherwise await response.json() (throws on a parse error) and return the data.
A JSON document whose content is literal null is the same JS value as the null
sentinel, so the return type is JSVal with JSVal.null as the sentinel. -/
def loadTryBlock : FetchOutcome → Except JsError JSVal
  | .networkFailure => .error .networkError
  | .response ok body =>
    if !ok then .ok .null
    else match body with
      | .parseFail => .error .syntaxError
      | .parseOk v => .ok v

/-- ContentLoader.load (contentLoader.js lines 19-34): fetches
content/{contentType}.json from the environment env (the network, keyed by
URL); the catch converts every thrown error into the null sentinel after
logging. Totality of this function (return type JSVal, not Except) embeds
that load never throws to its caller. -/
def load (env : String → FetchOutcome) (contentType : String) : JSVal :=
  match loadTryBlock (env ("content/" ++ contentType ++ ".json")) with
  | .ok v => v
  | .error _ => .null

/-- One HTML fragment appended to a card or text container, abstracting the
concatenated template strings of contentLoader.js by their shape and
interpolated values, in emission order. -/
inductive Frag where
  | heading (text : String)
  | para (text : String)
  | dateMeta (text : String)
  | tagsDiv (tags : List String)
  | ctaLink (href text : String)
  | typeBadge (text : String)
  | downloadLink (url attrFilename textFilename : String)
deriving Repr, DecidableEq

/-- A rendered card element: its class attribute and its inner fragments. -/
structure Card where
  className : String
  frags : List Frag
deriving Repr, DecidableEq

/-- Month-number token of an ISO date to its English name. -/
def monthName : String → Option String
  | "01" => some "January"
  | "02" => some "February"
  | "03" => some "March"
  | "04" => some "April"
  | "05" => some "May"
  | "06" => some "June"
  | "07" => some "July"
  | "08" => some "August"
  | "09" => some "September"
  | "10" => some "October"
  | "11" => some "November"
  | "12" => some "December"
  | _ => none

/-- JavaScript String.prototype.trim: whitespace stripped from both ends. -/
def jsTrim (s : String) : String :=
  (((s.data.dropWhile Char.isWhitespace).reverse.dropWhile Char.isWhitespace).reverse).asString

/-- Splits a character list at every dash, keeping empty groups. -/
def splitOnDash : List Char → List (List Char)
  | [] => [[]]
  | c :: rest =>
    match splitOnDash rest with
    | [] => [[]]
    | g :: gs => if c = '-' then [] :: g :: gs else (c :: g) :: gs

/-- Day token of an ISO date without its leading zero. -/
def dropLeadingZero (s : String) : String :=
  match s.data with
  | '0' :: rest => rest.asString
  | _ => s

/-- Modelled from the spec: the helper formatDate called by createCard
(contentLoader.js line 72) is defined in none of the provided source files
(one source file of the repository is missing here). The spec says dates are
ISO 8601 YYYY-MM-DD strings "formatted into a human-readable long form, e.g.
2026-01-15 → January 15, 2026"; a string not of that form is returned
unchanged. -/
def formatDate (s : String) : String :=
  match (splitOnDash s.data).map List.asString with
  | [y, m, d] =>
    match monthName m with
    | some mn => mn ++ " " ++ dropLeadingZero d ++ ", " ++ y
    | none => s
  | _ => s

/-- ContentLoader.createCard (contentLoader.js lines 60-90). The card HTML is
assembled by string concatenation in the source; here each emitted template
chunk becomes one Frag, in the same order: the heading first, a description
paragraph if truthy, the blog date block prepended in front of everything when
the card type is blog and a date is truthy, then the tags div, then the
call-to-action link. Property access item.title on a null item throws a
TypeError, as does forEach on a truthy non-array tags value. -/
def createCard (item : JSVal) (cardType : String) : Except JsError Card :=
  if item.isNull then .error .typeError else
  let titleFrags := [Frag.heading (jsStrOrDefault "" (item.access "title"))]
  let descFrags := if truthyOpt (item.access "description")
    then [Frag.para (jsFieldToString (item.access "description"))] else []
  let dateFrags := if (cardType == "blog") && truthyOpt (item.access "date")
    then [Frag.dateMeta (formatDate (jsFieldToString (item.access "date")))] else []
  let ctaFrags := if truthyOpt (item.access "cta") && truthyOpt (accessOpt (item.access "cta") "text")
    then [Frag.ctaLink (jsStrOrDefault "#" (accessOpt (item.access "cta") "link"))
            (jsFieldToString (accessOpt (item.access "cta") "text"))] else []
  let cls := "card " ++ cardType ++ "-card"
  if truthyOpt (item.access "tags") then
    match item.access "tags" with
    | some (.arr ts) =>
      .ok ⟨cls, dateFrags ++ titleFrags ++ descFrags ++ [Frag.tagsDiv (ts.map jsToString)] ++ ctaFrags⟩
    | _ => .error .typeError
  else
    .ok ⟨cls, dateFrags ++ titleFrags ++ descFrags ++ ctaFrags⟩

/-- Outcome of a DOM-mutating computation: either it completes, or an error is
thrown after the mutations made so far (JavaScript exceptions do not roll the
DOM back, so the state at the throw is carried along). -/
inductive JsOut (α : Type) where
  | ok (a : α)
  | thrown (a : α) (e : JsError)
deriving Repr, DecidableEq

/-- The forEach loop of ContentLoader.renderCards (contentLoader.js lines
48-51): each item is turned into a card and appended; a throw from createCard
leaves the cards appended so far in place. -/
def appendCards (cardType : String) (acc : List Card) : List JSVal → JsOut (List Card)
  | [] => .ok acc
  | x :: rest =>
    match createCard x cardType with
    | .ok c => appendCards cardType (acc ++ [c]) rest
    | .error e => .thrown acc e

/-- ContentLoader.renderCards (contentLoader.js lines 42-52), with the target
container passed as explicit state: none when querySelector finds nothing, in
which case the function returns at once, as it also does when items is falsy.
Otherwise the container is cleared (innerHTML assignment) and the items are
appended one by one; forEach on a truthy non-array throws after the clear. -/
def renderCards (container : Option (List Card)) (items : Option JSVal)
    (cardType : String) : JsOut (Option (List Card)) :=
  match container with
  | none => .ok none
  | some old =>
    if !truthyOpt items then .ok (some old)
    else
      match items with
      | some (.arr xs) =>
        match appendCards cardType [] xs with
        | .ok cs => .ok (some cs)
        | .thrown cs e => .thrown (some cs) e
      | _ => .thrown (some []) .typeError

/-- ContentLoader.renderText (contentLoader.js lines 97-112): nothing happens
when the container is missing or the content is falsy; otherwise the container
content becomes an optional heading followed by an optional paragraph (empty
when both fields are absent). -/
def renderText (container : Option (List Frag)) (content : Option JSVal) :
    Option (List Frag) :=
  match container with
  | none => none
  | some old =>
    if !truthyOpt content then some old
    else
      let headingPart := if truthyOpt (accessOpt content "title")
        then [Frag.heading (jsFieldToString (accessOpt content "title"))] else []
      let paraPart := if truthyOpt (accessOpt content "body")
        then [Frag.para (jsFieldToString (accessOpt content "body"))] else []
      some (headingPart ++ paraPart)

/-- ContentLoader.createResourceCard (contentLoader.js lines 136-158):
heading, optional description paragraph, optional type badge, optional
download anchor (href interpolates item.download.url with no default, the
download attribute and the visible text interpolate the filename with an
empty and a File default respectively). item.title on a null item throws. -/
def createResourceCard (item : JSVal) : Except JsError Card :=
  if item.isNull then .error .typeError else
  let base := [Frag.heading (jsStrOrDefault "" (item.access "title"))]
  let descFrags := if truthyOpt (item.access "description")
    then [Frag.para (jsFieldToString (item.access "description"))] else []
  let typeFrags := if truthyOpt (item.access "type")
    then [Frag.typeBadge (jsFieldToString (item.access "type"))] else []
  let dl := item.access "download"
  let dlFrags := if truthyOpt dl
    then [Frag.downloadLink (jsFieldToString (accessOpt dl "url"))
           (jsStrOrDefault "" (accessOpt dl "filename"))
           (jsStrOrDefault "File" (accessOpt dl "filename"))] else []
  .ok ⟨"card resource-card", base ++ descFrags ++ typeFrags ++ dlFrags⟩

/-- The forEach loop of ContentLoader.renderResources (lines 125-128). -/
def appendResources (acc : List Card) : List JSVal → JsOut (List Card)
  | [] => .ok acc
  | x :: rest =>
    match createResourceCard x with
    | .ok c => appendResources (acc ++ [c]) rest
    | .error e => .thrown acc e

/-- ContentLoader.renderResources (contentLoader.js lines 119-129), shaped
exactly like renderCards but building resource cards. -/
def renderResources (container : Option (List Card)) (items : Option JSVal) :
    JsOut (Option (List Card)) :=
  match container with
  | none => .ok none
  | some old =>
    if !truthyOpt items then .ok (some old)
    else
      match items with
      | some (.arr xs) =>
        match appendResources [] xs with
        | .ok cs => .ok (some cs)
        | .thrown cs e => .thrown (some cs) e
      | _ => .thrown (some []) .typeError

/-- The fixed containers that init's second pass renders into. Each field is
the state of one container, none when the element is absent from the page. -/
structure Page where
  heroSubtitle : Option String
  aboutContent : Option (List Frag)
  servicesGrid : Option (List Card)
  resourcesIntro : Option (List Frag)
  resourcesGrid : Option (List Card)
  bookingContent : Option (List Frag)
  contactContent : Option (List Frag)
deriving Repr, DecidableEq

/-- The hero block of init (contentLoader.js lines 202-206): when the loaded
hero document and its subtitle are truthy and the subtitle element exists, its
text content becomes the subtitle. Never throws. -/
def heroStep (env : String → FetchOutcome) (p : Page) : Page :=
  let heroData := load env "hero"
  if heroData.truthy && truthyOpt (heroData.access "subtitle") then
    match p.heroSubtitle with
    | some _ => { p with heroSubtitle := some (jsFieldToString (heroData.access "subtitle")) }
    | none => p
  else p

/-- The about block of init (lines 209-212). Never throws. -/
def aboutStep (env : String → FetchOutcome) (p : Page) : Page :=
  let aboutData := load env "about"
  if aboutData.truthy then
    { p with aboutContent := renderText p.aboutContent (some aboutData) }
  else p

/-- The services block of init (lines 215-218): renderCards with card type
service; can throw when servicesData.items is a truthy non-array or contains
a bad item. -/
def servicesStep (env : String → FetchOutcome) (p : Page) : JsOut Page :=
  let servicesData := load env "services"
  if servicesData.truthy && truthyOpt (servicesData.access "items") then
    match renderCards p.servicesGrid (servicesData.access "items") "service" with
    | .ok g => .ok { p with servicesGrid := g }
    | .thrown g e => .thrown { p with servicesGrid := g } e
  else .ok p

/-- The resources block of init (lines 221-229): optional intro text, then
resource cards; the cards part can throw. -/
def resourcesStep (env : String → FetchOutcome) (p : Page) : JsOut Page :=
  let resourcesData := load env "resources"
  if !resourcesData.truthy then .ok p
  else
    let p1 := if truthyOpt (resourcesData.access "intro")
      then { p with resourcesIntro := renderText p.resourcesIntro (resourcesData.access "intro") }
      else p
    if truthyOpt (resourcesData.access "items") then
      match renderResources p1.resourcesGrid (resourcesData.access "items") with
      | .ok g => .ok { p1 with resourcesGrid := g }
      | .thrown g e => .thrown { p1 with resourcesGrid := g } e
    else .ok p1

/-- The booking block of init (lines 232-235). Never throws. -/
def bookingStep (env : String → FetchOutcome) (p : Page) : Page :=
  let bookingData := load env "booking"
  if bookingData.truthy then
    { p with bookingContent := renderText p.bookingContent (some bookingData) }
  else p

/-- The contact block of init (lines 238-241). Never throws. -/
def contactStep (env : String → FetchOutcome) (p : Page) : Page :=
  let contactData := load env "contact"
  if contactData.truthy then
    { p with contactContent := renderText p.contactContent (some contactData) }
  else p

/-- The single try block wrapping the whole second pass of init
(contentLoader.js lines 200-242): the six section blocks run sequentially in
one try; a throw in one of them abandons the blocks after it. -/
def initSecondPassRun (env : String → FetchOutcome) (p : Page) : JsOut Page :=
  match servicesStep env (aboutStep env (heroStep env p)) with
  | .thrown q e => .thrown q e
  | .ok q =>
    match resourcesStep env q with
    | .thrown r e => .thrown r e
    | .ok r => .ok (contactStep env (bookingStep env r))

/-- The second pass of init with its catch (lines 242-244): a thrown error is
logged and swallowed, leaving the page as it was at the moment of the throw. -/
def initSecondPass (env : String → FetchOutcome) (p : Page) : Page :=
  match initSecondPassRun env p with
  | .ok q => q
  | .thrown q _ => q

/-- The DOM pieces belonging to one section for the visibility rule: whether
the section container, its nav link and its nav spacer are present. -/
structure SectionDom where
  container : Bool
  navLink : Bool
  navSpacer : Bool
deriving Repr, DecidableEq

/-- Strict equality content.render === false of handleConditionalRendering:
true exactly for the boolean value false; undefined, null and every other
value compare unequal under ===. -/
def isStrictFalse : Option JSVal → Bool
  | some (.bool false) => true
  | _ => false

/-- handleConditionalRendering (contentLoader.js lines 170-183): a missing
container means nothing to delete; otherwise, when the content is truthy and
its render field is strictly false, the container, the nav link and the nav
spacer are all removed (removal of an already absent link or spacer keeps it
absent); in every other case the DOM is untouched. -/
def handleConditionalRendering (content : JSVal) (dom : SectionDom) : SectionDom :=
  if !dom.container then dom
  else if content.truthy && isStrictFalse (content.access "render") then
    ⟨false, false, false⟩
  else dom

/-- Membership in the character class of config.emailRegex (main.js line 17):
the class excludes whitespace and the at sign. Char.isWhitespace covers the
ASCII whitespace relevant here. -/
def isEmailChar (c : Char) : Bool := !c.isWhitespace && c != '@'

/-- Acceptance semantics of config.emailRegex (main.js line 17), an anchored
pattern: one or more class characters, a literal at sign, one or more class
characters, a literal dot, one or more class characters. A string matches
exactly when some choice of positions i (the at sign) and j (the literal dot)
splits it into three nonempty runs of class characters; the search below
ranges over all such position pairs. -/
def emailRegexTest (s : String) : Bool :=
  let cs := s.toList
  (List.range cs.length).any fun i =>
    (List.range cs.length).any fun j =>
      decide (0 < i) && decide (i + 1 < j) && decide (j + 1 < cs.length) &&
      (cs.get? i == some '@') && (cs.get? j == some '.') &&
      (cs.take i).all isEmailChar &&
      ((cs.drop (i + 1)).take (j - i - 1)).all isEmailChar &&
      (cs.drop (j + 1)).all isEmailChar

/-- Membership in the character class the spec describes for the email
pattern: it excludes only whitespace, not the at sign. -/
def isNonSpaceChar (c : Char) : Bool := !c.isWhitespace

/-- The email pattern as the spec words it — one or more non-space characters,
an at sign, one or more non-space characters, a dot, one or more non-space
characters — stated only to compare the spec against the code. -/
def claimedEmailTest (s : String) : Bool :=
  let cs := s.toList
  (List.range cs.length).any fun i =>
    (List.range cs.length).any fun j =>
      decide (0 < i) && decide (i + 1 < j) && decide (j + 1 < cs.length) &&
      (cs.get? i == some '@') && (cs.get? j == some '.') &&
      (cs.take i).all isNonSpaceChar &&
      ((cs.drop (i + 1)).take (j - i - 1)).all isNonSpaceChar &&
      (cs.drop (j + 1)).all isNonSpaceChar

/-- The three fields of the contact form. -/
inductive Field where
  | nameField
  | emailField
  | messageField
deriving Repr, DecidableEq

/-- One inline error appended beneath a field by showFieldError. -/
structure FieldError where
  field : Field
  message : String
deriving Repr, DecidableEq

/-- App.validateForm (main.js lines 89-124) on the three input values.
clearErrors empties the previous error list; the three rule groups then run
unconditionally one after another (no short-circuit between fields), each
appending at most one error: name required; email required, else must pass
the regex (tested on the untrimmed value); message required, else its trimmed
length must be at least 10. Returns the isValid flag and the errors shown. -/
def validateForm (nameValue emailValue messageValue : String) :
    Bool × List FieldError :=
  let errs : List FieldError := []
  let isValid := true
  let nameRes :=
    if (jsTrim nameValue).isEmpty then (false, errs ++ [⟨.nameField, "Name is required"⟩])
    else (isValid, errs)
  let emailRes :=
    if (jsTrim emailValue).isEmpty then (false, nameRes.2 ++ [⟨.emailField, "Email is required"⟩])
    else if !emailRegexTest emailValue then
      (false, nameRes.2 ++ [⟨.emailField, "Please enter a valid email"⟩])
    else (nameRes.1, nameRes.2)
  let messageRes :=
    if (jsTrim messageValue).isEmpty then
      (false, emailRes.2 ++ [⟨.messageField, "Message is required"⟩])
    else if (jsTrim messageValue).length < 10 then
      (false, emailRes.2 ++ [⟨.messageField, "Message must be at least 10 characters"⟩])
    else (emailRes.1, emailRes.2)
  messageRes

/-- The submit control: its disabled flag and its visible label. -/
structure SubmitButton where
  disabled : Bool
  label : String
deriving Repr, DecidableEq

/-- A transient banner shown by showNotification: success or danger kind with
its message text. -/
inductive Banner where
  | success (message : String)
  | danger (message : String)
deriving Repr, DecidableEq

/-- Observable state of the contact form and its page: the three input values,
the submit button, the inline field errors and the banners shown so far. -/
structure FormState where
  nameValue : String
  emailValue : String
  messageValue : String
  button : SubmitButton
  fieldErrors : List FieldError
  banners : List Banner
deriving Repr, DecidableEq

/-- Identifiers declared at the function scope of App.handleFormSubmit: none.
originalText (main.js line 58) and both submitBtn bindings are consts, which
are block-scoped; originalText lives in the scope of the try block only. -/
def handleFormSubmitFunctionScope : List (String × String) := []

/-- The finally block of handleFormSubmit (main.js lines 76-81): it re-queries
the button, clears disabled, then assigns originalText to the label. The
identifier originalText is resolved against the scopes enclosing the finally
block — its own block scope (which declares only submitBtn) and the function
scope. The try block is not an enclosing scope of the finally block, so the
const originalText declared inside the try is not visible here and the lookup
raises a ReferenceError, after disabled has already been cleared. -/
def finallyBlock (scope : List (String × String)) (b : SubmitButton) :
    SubmitButton × Option JsError :=
  let b1 : SubmitButton := { b with disabled := false }
  match scope.lookup "originalText" with
  | some t => ({ b1 with label := t }, none)
  | none => (b1, some JsError.referenceError)

/-- App.handleFormSubmit (main.js lines 45-82) on a form state. Validation
failure returns at once. Otherwise the try block saves the label into the try
block scope, disables the button, sets the pending label, awaits a delay that
always resolves, shows the success banner, resets the form fields and logs;
the catch is unreachable (nothing in the try rejects); the finally block then
runs (see finallyBlock). The second component is the error the handler throws
to its caller, if any. -/
def handleFormSubmit (st : FormState) : FormState × Option JsError :=
  let vres := validateForm st.nameValue st.emailValue st.messageValue
  let st1 : FormState := { st with fieldErrors := vres.2 }
  if !vres.1 then (st1, none)
  else
    let _tryScope : List (String × String) := [("originalText", st1.button.label)]
    let st2 : FormState := { st1 with button := ⟨true, "Sending..."⟩ }
    let st3 : FormState := { st2 with
      banners := st2.banners ++ [Banner.success "Message sent successfully! We\x27ll be in touch soon."],
      nameValue := "", emailValue := "", messageValue := "" }
    let fres := finallyBlock handleFormSubmitFunctionScope st3.button
    ({ st3 with button := fres.1 }, fres.2)

/-- Whether the menu toggle and the nav menu carry the active class
(navigation.js, setupMenuToggle). -/
structure MenuState where
  toggleActive : Bool
  menuActive : Bool
deriving Repr, DecidableEq

/-- The page starts with the active class on neither element. -/
def initialMenuState : MenuState := ⟨false, false⟩

/-- Click on the menu toggle (navigation.js lines 43-46): classList.toggle on
both elements flips both flags. -/
def toggleClick (s : MenuState) : MenuState := ⟨!s.toggleActive, !s.menuActive⟩

/-- Click on a nav menu link (lines 49-54): classList.remove clears both. -/
def navLinkClick (_ : MenuState) : MenuState := ⟨false, false⟩

/-- Document-level click (lines 57-63): when the click is outside the navbar
and the menu is active, both flags are cleared; otherwise nothing happens. -/
def outsideClick (insideNavbar : Bool) (s : MenuState) : MenuState :=
  if !insideNavbar && s.menuActive then ⟨false, false⟩ else s

/-- One user-driven menu operation. -/
inductive MenuOp where
  | toggle
  | link
  | outside (insideNavbar : Bool)

/-- Effect of one menu operation on the menu state. -/
def applyMenuOp : MenuOp → MenuState → MenuState
  | .toggle, s => toggleClick s
  | .link, s => navLinkClick s
  | .outside inside, s => outsideClick inside s

/-- Menu states reachable from the initial page state through any sequence of
menu operations. -/
inductive MenuReachable : MenuState → Prop where
  | init : MenuReachable initialMenuState
  | step (op : MenuOp) {s : MenuState} (h : MenuReachable s) :
      MenuReachable (applyMenuOp op s)

/-- One element with class section as the scroll-spy sees it: its id attribute
(none when the attribute is absent) and its offsetTop. The handler also reads
clientHeight into a local that it never uses, so it is omitted here. -/
structure ScrollSection where
  id : Option String
  offsetTop : Int
deriving Repr, DecidableEq

/-- One nav link as the scroll-spy sees it: its data-section attribute (none
when absent) and whether it carries the active class. -/
structure NavLink where
  dataSection : Option String
  active : Bool
deriving Repr, DecidableEq

/-- The first loop of the scroll handler (navigation.js lines 100-110):
current starts as the empty string and is overwritten by the id attribute of
every section whose offsetTop minus 100 is at or below the scroll offset, so
it ends as the id of the last such section. The value is a JS string or null,
modelled as Option String with none for null. -/
def scrollCurrent (sections : List ScrollSection) (scrollY : Int) : Option String :=
  sections.foldl
    (fun current sec => if scrollY ≥ sec.offsetTop - 100 then sec.id else current)
    (some "")

/-- The second loop of the scroll handler (lines 113-118): every link loses
the active class, then gains it exactly when its data-section attribute is
strictly equal to current (two equal strings, or both null). -/
def scrollHandler (sections : List ScrollSection) (links : List NavLink)
    (scrollY : Int) : List NavLink :=
  let current := scrollCurrent sections scrollY
  links.map fun l => { l with active := l.dataSection == current }

/-- The sections qualifying at a scroll offset, in document order: those whose
top lies at or above the offset plus 100. The claim speaks of the last one. -/
def lastQualifying (sections : List ScrollSection) (scrollY : Int) :
    Option ScrollSection :=
  (sections.filter fun sec => scrollY ≥ sec.offsetTop - 100).getLast?

/-- A services document whose items field is a truthy non-array, making the
services render of the second pass throw a TypeError. -/
def c3BadServices : JSVal := .obj [("items", .str "x")]

/-- A well-formed contact document. -/
def c3ContactDoc : JSVal := .obj [("title", .str "Contact"), ("body", .str "Call us")]

/-- A network where the services document is c3BadServices, the contact
document is c3ContactDoc, and every other fetch fails. -/
def c3EnvBad : String → FetchOutcome := fun u =>
  if u = "content/services.json" then .response true (.parseOk c3BadServices)
  else if u = "content/contact.json" then .response true (.parseOk c3ContactDoc)
  else .networkFailure

/-- The same network as c3EnvBad except that the services fetch fails too. -/
def c3EnvGood : String → FetchOutcome := fun u =>
  if u = "content/contact.json" then .response true (.parseOk c3ContactDoc)
  else .networkFailure

/-- A page on which every container of the second pass exists; the services
grid starts with one stale card so that clearing is observable. -/
def c3Page : Page :=
  ⟨some "Welcome", some [], some [⟨"stale", [Frag.heading "Old"]⟩],
   some [], some [], some [], some []⟩

/-- A network exercising the four load outcomes: a parsed document, a network
failure, a non-success status, and a parse error. -/
def c6Env : String → FetchOutcome := fun u =>
  if u = "content/services.json" then .response true (.parseOk (.obj [("items", .arr [])]))
  else if u = "content/about.json" then .networkFailure
  else if u = "content/blog.json" then .response false .parseFail
  else .response true .parseFail

/-- A blog item with a title and a date, as in the spec example. -/
def c2BlogItem : JSVal :=
  .obj [("title", .str "Understanding Anxiety"), ("date", .str "2026-01-15")]

/-- A card item with tags and a call-to-action. -/
def c8ItemFull : JSVal :=
  .obj [("title", .str "Individual Therapy"), ("description", .str "One on one"),
        ("tags", .arr [.str "Therapy"]),
        ("cta", .obj [("text", .str "Schedule Now"), ("link", .str "#contact")])]

/-- A card item with neither tags nor a call-to-action. -/
def c8ItemBare : JSVal := .obj [("title", .str "Group Therapy")]

/-! Helper lemmas shared by the claim theorems. -/

theorem isStrictFalse_iff (o : Option JSVal) :
    isStrictFalse o = true ↔ o = some (JSVal.bool false) := by
  cases o with
  | none => simp [isStrictFalse]
  | some v => cases v with
    | bool b => cases b <;> simp [isStrictFalse]
    | _ => simp [isStrictFalse]

theorem access_some_truthy (v : JSVal) (k : String) (w : JSVal)
    (h : v.access k = some w) : v.truthy = true := by
  cases v <;> first
  | rfl
  | simp [JSVal.access] at h

/-! C1: submit button restoration after a valid submission attempt. -/

/-- C1: for a submission that passes validation, once the attempt concludes
the submit control is re-enabled, but its label is NOT restored: the finally
block references originalText, a const scoped to the try block, so after
clearing disabled it raises a ReferenceError and leaves the label at the
pending text Sending...; the success banner and form reset have already
happened. This refutes the restoration of the label that the claim states
(the disabled flag alone is restored). -/
theorem submit_finally_reference_error :
  handleFormSubmit
      ⟨"Jane Doe", "jane@example.com", "Hello, I\x27d like to book a session.",
       ⟨false, "Send Message"⟩, [], []⟩ =
    (⟨"", "", "", ⟨false, "Sending..."⟩, [],
      [Banner.success "Message sent successfully! We\x27ll be in touch soon."]⟩,
     some JsError.referenceError) := rfl

/-! C7: independent validation of the three fields. -/

/-- C7: submitting with an empty name, the email not-an-email and the
5-character message Hello produces exactly three inline field errors, one per
field in form order, the submission is blocked (isValid is false and
handleFormSubmit returns before the try block: button untouched, fields not
reset, no error thrown) and no success banner is shown. -/
theorem validate_three_errors_no_banner :
  validateForm "" "not-an-email" "Hello" =
    (false,
     [⟨Field.nameField, "Name is required"⟩,
      ⟨Field.emailField, "Please enter a valid email"⟩,
      ⟨Field.messageField, "Message must be at least 10 characters"⟩]) ∧
  handleFormSubmit ⟨"", "not-an-email", "Hello", ⟨false, "Send Message"⟩, [], []⟩ =
    (⟨"", "not-an-email", "Hello", ⟨false, "Send Message"⟩,
      [⟨Field.nameField, "Name is required"⟩,
       ⟨Field.emailField, "Please enter a valid email"⟩,
       ⟨Field.messageField, "Message must be at least 10 characters"⟩], []⟩,
     none) := ⟨rfl, rfl⟩

/-! C5: the conditional-rendering (visibility flag) rule. -/

/-- C5: for a section whose container exists, handleConditionalRendering
deletes the container, nav link and nav spacer exactly when the loaded
document carries a render field strictly equal to false; when the field is
absent, when it is null, and when the document itself is null (failed load),
the section DOM is left unchanged. -/
theorem conditional_rendering_spec (content : JSVal) (dom : SectionDom)
    (hc : dom.container = true) :
    (handleConditionalRendering content dom = ⟨false, false, false⟩ ↔
      content.access "render" = some (JSVal.bool false))
    ∧ (content.access "render" = none → handleConditionalRendering content dom = dom)
    ∧ (content.access "render" = some JSVal.null → handleConditionalRendering content dom = dom)
    ∧ (content = JSVal.null → handleConditionalRendering content dom = dom) := by
  unfold handleConditionalRendering
  rw [hc]
  simp only [Bool.not_true, Bool.false_eq_true, if_false]
  by_cases hb : (content.truthy && isStrictFalse (content.access "render")) = true
  · rw [if_pos hb]
    rcases (Bool.and_eq_true _ _).mp hb with ⟨ht, hf⟩
    have hr := (isStrictFalse_iff _).mp hf
    refine ⟨⟨fun _ => hr, fun _ => rfl⟩, ?_, ?_, ?_⟩
    · intro h0; rw [h0] at hr; cases hr
    · intro h0; rw [h0] at hr; cases hr
    · intro h0; rw [h0] at ht; cases ht
  · rw [if_neg hb]
    have hne : ¬ content.access "render" = some (JSVal.bool false) := by
      intro hr
      apply hb
      refine (Bool.and_eq_true _ _).mpr ⟨access_some_truthy content "render" _ hr, ?_⟩
      exact (isStrictFalse_iff _).mpr hr
    refine ⟨⟨fun h0 => ?_, fun h0 => absurd h0 hne⟩, fun _ => rfl, fun _ => rfl, fun _ => rfl⟩
    have : dom.container = false := by rw [h0]
    rw [hc] at this
    cases this

/-- C5 witness: a document with render strictly false on a fully present
section deletes all three pieces; instantiates conditional_rendering_spec. -/
theorem conditional_rendering_spec_witness :
    handleConditionalRendering (JSVal.obj [("render", JSVal.bool false)])
      ⟨true, true, true⟩ = ⟨false, false, false⟩ :=
  (conditional_rendering_spec (JSVal.obj [("render", JSVal.bool false)])
    ⟨true, true, true⟩ rfl).1.mpr rfl

/-! C6: the load contract. -/

/-- C6: load env name fetches content/name.json and returns the parsed
document on a success response; it returns the null sentinel on a network
failure, on a non-success status, and on a parse error. Its return type is
JSVal rather than Except, embedding that nothing is ever thrown to the
caller. -/
theorem load_contract (env : String → FetchOutcome) (contentType : String) :
    (∀ v, env ("content/" ++ contentType ++ ".json") = .response true (.parseOk v) →
      load env contentType = v)
    ∧ (env ("content/" ++ contentType ++ ".json") = .networkFailure →
      load env contentType = .null)
    ∧ (∀ body, env ("content/" ++ contentType ++ ".json") = .response false body →
      load env contentType = .null)
    ∧ (env ("content/" ++ contentType ++ ".json") = .response true .parseFail →
      load env contentType = .null) := by
  refine ⟨?_, ?_, ?_, ?_⟩
  · intro v h; unfold load loadTryBlock; rw [h]; rfl
  · intro h; unfold load loadTryBlock; rw [h]
  · intro body h; unfold load loadTryBlock; rw [h]; rfl
  · intro h; unfold load loadTryBlock; rw [h]; rfl

/-- C6 witness: the four outcomes of load_contract on the concrete network
c6Env. -/
theorem load_contract_witness :
    load c6Env "services" = JSVal.obj [("items", JSVal.arr [])]
    ∧ load c6Env "about" = JSVal.null
    ∧ load c6Env "blog" = JSVal.null
    ∧ load c6Env "hero" = JSVal.null :=
  ⟨(load_contract c6Env "services").1 _ rfl,
   (load_contract c6Env "about").2.1 rfl,
   (load_contract c6Env "blog").2.2.1 .parseFail rfl,
   (load_contract c6Env "hero").2.2.2 rfl⟩

/-! C10: the menu active-class invariant. -/

/-- C10: from the initial state, in which neither the menu toggle nor the nav
menu carries the active class, every sequence of menu operations (toggle
click, menu-link click, document click outside or inside the navbar)
preserves the invariant that the toggle carries the active class exactly when
the menu does. -/
theorem menu_active_class_invariant (s : MenuState) (h : MenuReachable s) :
    s.toggleActive = s.menuActive := by
  induction h with
  | init => rfl
  | step op h ih =>
    cases op with
    | toggle => simpa [applyMenuOp, toggleClick] using congrArg Bool.not ih
    | link => rfl
    | outside inside =>
      simp only [applyMenuOp, outsideClick]
      split
      · rfl
      · exact ih

/-- C10 witness: the invariant at the state reached by one toggle click. -/
theorem menu_active_class_invariant_witness :
    (applyMenuOp MenuOp.toggle initialMenuState).toggleActive =
      (applyMenuOp MenuOp.toggle initialMenuState).menuActive :=
  menu_active_class_invariant _ (MenuReachable.step MenuOp.toggle MenuReachable.init)

/-! C9: the scroll-spy handler. -/

theorem cons_getLast? {α : Type} (x : α) (ys : List α) :
    (x :: ys).getLast? = some (ys.getLast?.getD x) := by
  induction ys generalizing x with
  | nil => rfl
  | cons y ys ih => rw [List.getLast?_cons_cons, ih y]; rfl

theorem scrollCurrent_foldl (scrollY : Int) (sections : List ScrollSection) :
    ∀ init : Option String,
      sections.foldl
        (fun current sec => if scrollY ≥ sec.offsetTop - 100 then sec.id else current) init
      = match (sections.filter fun sec => scrollY ≥ sec.offsetTop - 100).getLast? with
        | some sec => sec.id
        | none => init := by
  induction sections with
  | nil => intro init; rfl
  | cons x xs ih =>
    intro init
    rw [List.foldl_cons, ih]
    by_cases hx : scrollY ≥ x.offsetTop - 100
    · rw [if_pos hx, List.filter_cons_of_pos (by simpa using hx), cons_getLast?]
      cases (xs.filter fun sec => scrollY ≥ sec.offsetTop - 100).getLast? <;> rfl
    · rw [if_neg hx, List.filter_cons_of_neg (by simpa using hx)]

/-- C9 counterexample: with a single section whose top (500) is below the
scroll offset plus 100 (0 + 100), no section qualifies, yet a link whose
data-section attribute is the empty string is marked active, because the
handler initialises its accumulator to the empty string and compares with
strict equality. The claim says no link is marked active in this case. -/
theorem scroll_spy_no_section_counterexample :
    lastQualifying [⟨some "s", 500⟩] 0 = none ∧
    scrollHandler [⟨some "s", 500⟩] [⟨some "", false⟩] 0 = [⟨some "", true⟩] :=
  ⟨rfl, rfl⟩

/-- C9 amended: one run of the handler sets the active class exactly on the
links whose data-section attribute strictly equals the id attribute of the
last section whose top lies at or above scrollY + 100, and clears all other
links; when no section qualifies, the comparison value is the empty-string
sentinel, so links whose data-section is the empty string (and only those)
end up marked. Strict equality also lets a link without the attribute match a
qualifying section without an id (both null). -/
theorem scroll_spy_amended (sections : List ScrollSection) (links : List NavLink)
    (scrollY : Int) :
    scrollHandler sections links scrollY =
      links.map fun l => { l with active :=
        l.dataSection == (match lastQualifying sections scrollY with
                          | some sec => sec.id
                          | none => some "") } := by
  unfold scrollHandler scrollCurrent lastQualifying
  rw [scrollCurrent_foldl]

/-! C3: isolation (or not) of the sections in init's second pass. -/

theorem heroStep_preserves (env : String → FetchOutcome) (p : Page) :
    (heroStep env p).aboutContent = p.aboutContent ∧
    (heroStep env p).servicesGrid = p.servicesGrid ∧
    (heroStep env p).resourcesIntro = p.resourcesIntro ∧
    (heroStep env p).resourcesGrid = p.resourcesGrid ∧
    (heroStep env p).bookingContent = p.bookingContent ∧
    (heroStep env p).contactContent = p.contactContent := by
  unfold heroStep
  by_cases hc : ((load env "hero").truthy && truthyOpt ((load env "hero").access "subtitle")) = true
  · rw [if_pos hc]
    cases hs : p.heroSubtitle <;> simp
  · rw [if_neg hc]
    exact ⟨rfl, rfl, rfl, rfl, rfl, rfl⟩

theorem aboutStep_preserves (env : String → FetchOutcome) (p : Page) :
    (aboutStep env p).heroSubtitle = p.heroSubtitle ∧
    (aboutStep env p).servicesGrid = p.servicesGrid ∧
    (aboutStep env p).resourcesIntro = p.resourcesIntro ∧
    (aboutStep env p).resourcesGrid = p.resourcesGrid ∧
    (aboutStep env p).bookingContent = p.bookingContent ∧
    (aboutStep env p).contactContent = p.contactContent := by
  unfold aboutStep
  by_cases hc : (load env "about").truthy = true
  · rw [if_pos hc]
    exact ⟨rfl, rfl, rfl, rfl, rfl, rfl⟩
  · rw [if_neg hc]
    exact ⟨rfl, rfl, rfl, rfl, rfl, rfl⟩

theorem servicesStep_thrown (env : String → FetchOutcome) (p q : Page) (e : JsError)
    (h : servicesStep env p = .thrown q e) :
    q.heroSubtitle = p.heroSubtitle ∧
    q.aboutContent = p.aboutContent ∧
    q.resourcesIntro = p.resourcesIntro ∧
    q.resourcesGrid = p.resourcesGrid ∧
    q.bookingContent = p.bookingContent ∧
    q.contactContent = p.contactContent := by
  unfold servicesStep at h
  by_cases hc : ((load env "services").truthy &&
      truthyOpt ((load env "services").access "items")) = true
  · rw [if_pos hc] at h
    cases hr : renderCards p.servicesGrid ((load env "services").access "items") "service" with
    | ok g => rw [hr] at h; cases h
    | thrown g e2 =>
      rw [hr] at h
      cases h
      exact ⟨rfl, rfl, rfl, rfl, rfl, rfl⟩
  · rw [if_neg hc] at h
    cases h

/-- C3 counterexample: on the page c3Page where every container exists, the
network c3EnvBad differs from c3EnvGood only in the services document.
With c3EnvBad the services render throws (items is a truthy non-array) after
clearing the grid, and the contact section — whose document is present and
well-formed — is never rendered; with c3EnvGood (services fetch fails, which
load turns into a harmless null) the very same contact document is rendered.
So a failure while rendering one section does prevent later sections from
being attempted, refuting the claim. -/
theorem init_second_pass_counterexample :
    initSecondPass c3EnvBad c3Page = { c3Page with servicesGrid := some [] } ∧
    initSecondPass c3EnvGood c3Page =
      { c3Page with contactContent := some [Frag.heading "Contact", Frag.para "Call us"] } :=
  ⟨rfl, by decide⟩

/-- C3 amended: the whole second pass runs inside one try/catch, so the
sections are not isolated: whenever the services block throws, the page keeps
the hero and about results (the sections before the throw), the services grid
keeps the state it had at the throw, and the resources, booking and contact
sections are left exactly as they were before the pass — their load/render is
never attempted. The thrown error itself is caught and not propagated
(initSecondPass is total). load itself never throws; only rendering can. -/
theorem init_second_pass_single_catch (env : String → FetchOutcome) (p q : Page)
    (e : JsError)
    (h : servicesStep env (aboutStep env (heroStep env p)) = .thrown q e) :
    initSecondPass env p = q
    ∧ q.heroSubtitle = (heroStep env p).heroSubtitle
    ∧ q.aboutContent = (aboutStep env (heroStep env p)).aboutContent
    ∧ q.resourcesIntro = p.resourcesIntro
    ∧ q.resourcesGrid = p.resourcesGrid
    ∧ q.bookingContent = p.bookingContent
    ∧ q.contactContent = p.contactContent := by
  have h1 := heroStep_preserves env p
  have h2 := aboutStep_preserves env (heroStep env p)
  have h3 := servicesStep_thrown env (aboutStep env (heroStep env p)) q e h
  refine ⟨?_, ?_, ?_, ?_, ?_, ?_, ?_⟩
  · unfold initSecondPass initSecondPassRun
    rw [h]
  · rw [h3.1, h2.1]
  · exact h3.2.1
  · rw [h3.2.2.1, h2.2.2.1, h1.2.2.1]
  · rw [h3.2.2.2.1, h2.2.2.2.1, h1.2.2.2.1]
  · rw [h3.2.2.2.2.1, h2.2.2.2.2.1, h1.2.2.2.2.1]
  · rw [h3.2.2.2.2.2, h2.2.2.2.2.2, h1.2.2.2.2.2]

/-! C2 and C8: card creation and card-grid rendering. -/

theorem createCard_ok_frags (item : JSVal) (cardType : String) (card : Card)
    (h : createCard item cardType = .ok card) :
    ∃ tagsPart : List Frag,
      card.frags =
        (if (cardType == "blog") && truthyOpt (item.access "date")
          then [Frag.dateMeta (formatDate (jsFieldToString (item.access "date")))] else [])
        ++ [Frag.heading (jsStrOrDefault "" (item.access "title"))]
        ++ (if truthyOpt (item.access "description")
          then [Frag.para (jsFieldToString (item.access "description"))] else [])
        ++ tagsPart
        ++ (if truthyOpt (item.access "cta") && truthyOpt (accessOpt (item.access "cta") "text")
          then [Frag.ctaLink (jsStrOrDefault "#" (accessOpt (item.access "cta") "link"))
                  (jsFieldToString (accessOpt (item.access "cta") "text"))] else [])
      ∧ (∀ f ∈ tagsPart, ∃ ts, f = Frag.tagsDiv ts)
      ∧ (truthyOpt (item.access "tags") = false → tagsPart = []) := by
  unfold createCard at h
  by_cases hn : item.isNull = true
  · rw [if_pos hn] at h
    cases h
  · rw [if_neg hn] at h
    by_cases htg : truthyOpt (item.access "tags") = true
    · rw [if_pos htg] at h
      cases hacc : item.access "tags" with
      | none => rw [hacc] at h; cases h
      | some v =>
        rw [hacc] at h
        cases v with
        | arr ts =>
          injection h with h2
          subst h2
          refine ⟨[Frag.tagsDiv (ts.map jsToString)], rfl, ?_, ?_⟩
          · intro f hf
            rw [List.mem_singleton] at hf
            exact ⟨_, hf⟩
          · intro h0
            exact Bool.noConfusion h0
        | null => cases h
        | bool b => cases h
        | num n => cases h
        | str s2 => cases h
        | obj fs => cases h
    · rw [if_neg htg] at h
      injection h with h2
      subst h2
      exact ⟨[], by simp, by simp, fun _ => rfl⟩

/-- C3 amended witness: init_second_pass_single_catch instantiated on
c3EnvBad and c3Page, with the throw hypothesis discharged by evaluation. -/
theorem init_second_pass_single_catch_witness :
    initSecondPass c3EnvBad c3Page = { c3Page with servicesGrid := some [] } ∧
    ({ c3Page with servicesGrid := some [] } : Page).contactContent = c3Page.contactContent :=
  ⟨(init_second_pass_single_catch c3EnvBad c3Page
      { c3Page with servicesGrid := some [] } JsError.typeError rfl).1,
   (init_second_pass_single_catch c3EnvBad c3Page
      { c3Page with servicesGrid := some [] } JsError.typeError rfl).2.2.2.2.2.2⟩

/-- C2: a successfully created card carries a date badge exactly when the card
type is blog and the item has a truthy date; when present the badge is the
first fragment, placed before the title heading, and shows the formatted
date; and the formatter sends 2026-01-15 to January 15, 2026 (so a non-blog
card with the same date has no badge, by the exactly-when part). -/
theorem createCard_date_badge (item : JSVal) (cardType : String) (card : Card)
    (h : createCard item cardType = .ok card) :
    ((∃ s, Frag.dateMeta s ∈ card.frags) ↔
      (cardType = "blog" ∧ truthyOpt (item.access "date") = true))
    ∧ (cardType = "blog" → truthyOpt (item.access "date") = true →
        ∃ rest, card.frags =
          Frag.dateMeta (formatDate (jsFieldToString (item.access "date"))) ::
          Frag.heading (jsStrOrDefault "" (item.access "title")) :: rest)
    ∧ formatDate "2026-01-15" = "January 15, 2026" := by
  obtain ⟨tagsPart, hf, htp, -⟩ := createCard_ok_frags item cardType card h
  refine ⟨⟨?_, ?_⟩, ?_, rfl⟩
  · rintro ⟨s, hs⟩
    rw [hf] at hs
    simp only [List.mem_append] at hs
    rcases hs with (((hs | hs) | hs) | hs) | hs
    · by_cases hb : ((cardType == "blog") && truthyOpt (item.access "date")) = true
      · rcases (Bool.and_eq_true _ _).mp hb with ⟨h1, h2⟩
        exact ⟨eq_of_beq h1, h2⟩
      · rw [if_neg hb] at hs
        cases hs
    · rw [List.mem_singleton] at hs
      cases hs
    · revert hs
      split <;> simp
    · obtain ⟨ts, hts⟩ := htp _ hs
      cases hts
    · revert hs
      split <;> simp
  · rintro ⟨hb1, hb2⟩
    have hb : ((cardType == "blog") && truthyOpt (item.access "date")) = true := by
      rw [hb1, hb2]; rfl
    refine ⟨formatDate (jsFieldToString (item.access "date")), ?_⟩
    rw [hf, if_pos hb]
    simp
  · intro hb1 hb2
    have hb : ((cardType == "blog") && truthyOpt (item.access "date")) = true := by
      rw [hb1, hb2]; rfl
    refine ⟨(if truthyOpt (item.access "description")
        then [Frag.para (jsFieldToString (item.access "description"))] else [])
      ++ (tagsPart
      ++ (if truthyOpt (item.access "cta") && truthyOpt (accessOpt (item.access "cta") "text")
        then [Frag.ctaLink (jsStrOrDefault "#" (accessOpt (item.access "cta") "link"))
                (jsFieldToString (accessOpt (item.access "cta") "text"))] else [])), ?_⟩
    rw [hf, if_pos hb]
    simp

/-- C2 witness: createCard_date_badge instantiated on the blog item of the
spec example (title Understanding Anxiety, date 2026-01-15), whose card
evaluates to the date badge January 15, 2026 followed by the heading. -/
theorem createCard_date_badge_witness :
    ((∃ s, Frag.dateMeta s ∈
        (⟨"card blog-card", [Frag.dateMeta "January 15, 2026",
          Frag.heading "Understanding Anxiety"]⟩ : Card).frags) ↔
      ("blog" = "blog" ∧ truthyOpt (c2BlogItem.access "date") = true))
    ∧ ("blog" = "blog" → truthyOpt (c2BlogItem.access "date") = true →
        ∃ rest, (⟨"card blog-card", [Frag.dateMeta "January 15, 2026",
            Frag.heading "Understanding Anxiety"]⟩ : Card).frags =
          Frag.dateMeta (formatDate (jsFieldToString (c2BlogItem.access "date"))) ::
          Frag.heading (jsStrOrDefault "" (c2BlogItem.access "title")) :: rest)
    ∧ formatDate "2026-01-15" = "January 15, 2026" :=
  createCard_date_badge c2BlogItem "blog"
    ⟨"card blog-card", [Frag.dateMeta "January 15, 2026",
      Frag.heading "Understanding Anxiety"]⟩ rfl

theorem createCard_no_tags_no_cta (x : JSVal) (ct : String) (c : Card)
    (hc : createCard x ct = .ok c) :
    (truthyOpt (x.access "tags") = false → ∀ ts, Frag.tagsDiv ts ∉ c.frags)
    ∧ (truthyOpt (x.access "cta") = false → ∀ href text, Frag.ctaLink href text ∉ c.frags) := by
  obtain ⟨tagsPart, hf, htp, hemp⟩ := createCard_ok_frags x ct c hc
  constructor
  · intro ht ts hmem
    rw [hf, hemp ht] at hmem
    simp only [List.append_nil, List.mem_append] at hmem
    rcases hmem with ((hm | hm) | hm) | hm
    · revert hm; split <;> simp
    · simp at hm
    · revert hm; split <;> simp
    · revert hm; split <;> simp
  · intro hcta href text hmem
    rw [hf] at hmem
    have hfcta : (truthyOpt (x.access "cta") &&
        truthyOpt (accessOpt (x.access "cta") "text")) = false := by
      rw [hcta]; rfl
    rw [hfcta] at hmem
    simp only [Bool.false_eq_true, if_false, List.append_nil, List.mem_append] at hmem
    rcases hmem with ((hm | hm) | hm) | hm
    · revert hm; split <;> simp
    · simp at hm
    · revert hm; split <;> simp
    · obtain ⟨ts, hts⟩ := htp _ hm
      cases hts

theorem appendCards_ok (cardType : String) (xs : List JSVal)
    (h : ∀ x ∈ xs, ∃ c, createCard x cardType = .ok c) :
    ∀ acc, ∃ cards, appendCards cardType acc xs = .ok (acc ++ cards)
      ∧ List.Forall₂ (fun x c => createCard x cardType = Except.ok c) xs cards := by
  induction xs with
  | nil => exact fun acc => ⟨[], by simp [appendCards], List.Forall₂.nil⟩
  | cons x rest ih =>
    intro acc
    obtain ⟨c, hc⟩ := h x (List.mem_cons_self x rest)
    obtain ⟨cards, h1, h2⟩ := ih (fun y hy => h y (List.mem_cons_of_mem x hy)) (acc ++ [c])
    refine ⟨c :: cards, ?_, List.Forall₂.cons hc h2⟩
    simp only [appendCards, hc, h1]
    simp

/-- C8: for any existing container and any array of items each of which
createCard accepts, renderCards replaces the container content with exactly
one card per item, in input order (the result pairs up with the items by
Forall₂ and has the same length), and the result does not depend on what the
container held before (the clear); moreover a card built from an item with no
tags contains no tag-badge fragment, and one from an item with no
call-to-action contains no action-link fragment. -/
theorem renderCards_order_spec (old : List Card) (xs : List JSVal) (cardType : String)
    (h : ∀ x ∈ xs, ∃ c, createCard x cardType = .ok c) :
    ∃ cards : List Card,
      renderCards (some old) (some (.arr xs)) cardType = .ok (some cards)
      ∧ List.Forall₂ (fun x c => createCard x cardType = Except.ok c) xs cards
      ∧ cards.length = xs.length
      ∧ (∀ old2 : List Card, renderCards (some old2) (some (.arr xs)) cardType = .ok (some cards))
      ∧ (∀ x c, createCard x cardType = Except.ok c →
          (truthyOpt (x.access "tags") = false → ∀ ts, Frag.tagsDiv ts ∉ c.frags)
          ∧ (truthyOpt (x.access "cta") = false →
              ∀ href text, Frag.ctaLink href text ∉ c.frags)) := by
  obtain ⟨cards, h1, h2⟩ := appendCards_ok cardType xs h []
  rw [List.nil_append] at h1
  refine ⟨cards, ?_, h2, h2.length_eq.symm, fun old2 => ?_, ?_⟩
  · show (match appendCards cardType [] xs with
      | .ok cs => (.ok (some cs) : JsOut (Option (List Card)))
      | .thrown cs e => .thrown (some cs) e) = .ok (some cards)
    rw [h1]
  · show (match appendCards cardType [] xs with
      | .ok cs => (.ok (some cs) : JsOut (Option (List Card)))
      | .thrown cs e => .thrown (some cs) e) = .ok (some cards)
    rw [h1]
  · intro x c hc
    exact createCard_no_tags_no_cta x cardType c hc

/-- C8 witness: renderCards_order_spec instantiated on a nonempty container
and the two concrete items c8ItemFull and c8ItemBare. -/
theorem renderCards_order_spec_witness :
    ∃ cards : List Card,
      renderCards (some [⟨"old", [Frag.heading "stale"]⟩])
          (some (.arr [c8ItemFull, c8ItemBare])) "service" = .ok (some cards)
      ∧ List.Forall₂ (fun x c => createCard x "service" = Except.ok c)
          [c8ItemFull, c8ItemBare] cards
      ∧ cards.length = [c8ItemFull, c8ItemBare].length
      ∧ (∀ old2 : List Card, renderCards (some old2)
          (some (.arr [c8ItemFull, c8ItemBare])) "service" = .ok (some cards))
      ∧ (∀ x c, createCard x "service" = Except.ok c →
          (truthyOpt (x.access "tags") = false → ∀ ts, Frag.tagsDiv ts ∉ c.frags)
          ∧ (truthyOpt (x.access "cta") = false →
              ∀ href text, Frag.ctaLink href text ∉ c.frags)) :=
  renderCards_order_spec [⟨"old", [Frag.heading "stale"]⟩] [c8ItemFull, c8ItemBare]
    "service" (by
      intro x hx
      rcases List.mem_cons.mp hx with rfl | hx2
      · exact ⟨_, rfl⟩
      · rcases List.mem_cons.mp hx2 with rfl | hx3
        · exact ⟨_, rfl⟩
        · cases hx3)

/-! C4: the email pattern. -/

theorem split_at_two (cs : List Char) (i j : Nat) (hij : i + 1 < j)
    (hj : j < cs.length) (ha : cs.get? i = some '@') (hd : cs.get? j = some '.') :
    cs = cs.take i ++ '@' :: ((cs.drop (i + 1)).take (j - i - 1) ++ '.' :: cs.drop (j + 1)) := by
  have hi : i < cs.length := by omega
  obtain ⟨hi2, hga⟩ := List.get?_eq_some.mp ha
  obtain ⟨hj2, hgd⟩ := List.get?_eq_some.mp hd
  conv_lhs => rw [← List.take_append_drop i cs]
  congr 1
  have e2 : cs.drop i = '@' :: cs.drop (i + 1) := by
    rw [List.drop_eq_get_cons hi]
    rw [show cs.get ⟨i, hi⟩ = '@' from hga]
  rw [e2]
  congr 1
  conv_lhs => rw [← List.take_append_drop (j - i - 1) (cs.drop (i + 1))]
  congr 1
  rw [List.drop_drop]
  rw [show i + 1 + (j - i - 1) = j from by omega]
  rw [List.drop_eq_get_cons hj]
  rw [show cs.get ⟨j, hj⟩ = '.' from hgd]

/-- C4 counterexample: the string a@b@c.d matches the pattern as the spec and
the claim word it (runs of non-space characters around the at sign and the
dot), but the regex in the code excludes the at sign from all three character
classes, so the code rejects it: emailRegexTest is false on it and validation
reports the invalid-email field error. -/
theorem email_pattern_counterexample :
    claimedEmailTest "a@b@c.d" = true ∧
    emailRegexTest "a@b@c.d" = false ∧
    (validateForm "Jane" "a@b@c.d" "A long enough message").2 =
      [⟨Field.emailField, "Please enter a valid email"⟩] :=
  ⟨rfl, rfl, rfl⟩

/-- C4 amended: the email regex accepts exactly the strings of the shape one
or more characters that are neither whitespace nor the at sign, then an at
sign, then one or more such characters, then a dot, then one or more such
characters (so a second at sign anywhere, as in a@b@c.d, is rejected); and
for an email whose trimmed value is nonempty, validation accepts it (no
email field error) exactly when the regex does, independently of the other
two fields. -/
theorem email_pattern_amended (s : String) :
    (emailRegexTest s = true ↔
      ∃ x y z : List Char, x ≠ [] ∧ y ≠ [] ∧ z ≠ [] ∧
        x.all isEmailChar = true ∧ y.all isEmailChar = true ∧ z.all isEmailChar = true ∧
        s.toList = x ++ '@' :: (y ++ '.' :: z))
    ∧ (∀ nameValue messageValue, (jsTrim s).isEmpty = false →
        (((validateForm nameValue s messageValue).2.filter
            fun fe => fe.field == Field.emailField) = [] ↔
          emailRegexTest s = true)) := by
  constructor
  · constructor
    · intro h
      simp only [emailRegexTest, List.any_eq_true, List.mem_range, Bool.and_eq_true,
        decide_eq_true_eq, beq_iff_eq] at h
      obtain ⟨i, hi, j, hj, ⟨⟨⟨⟨⟨⟨h0i, hij⟩, hjlen⟩, ha⟩, hd⟩, hx⟩, hy⟩, hz⟩ := h
      refine ⟨s.toList.take i, (s.toList.drop (i + 1)).take (j - i - 1),
        s.toList.drop (j + 1), ?_, ?_, ?_, hx, hy, hz, ?_⟩
      · apply List.ne_nil_of_length_pos
        rw [List.length_take]
        omega
      · apply List.ne_nil_of_length_pos
        rw [List.length_take, List.length_drop]
        omega
      · apply List.ne_nil_of_length_pos
        rw [List.length_drop]
        omega
      · exact split_at_two s.toList i j hij hj ha hd
    · rintro ⟨x, y, z, hx0, hy0, hz0, hxa, hya, hza, hs⟩
      have hxpos := List.length_pos.mpr hx0
      have hypos := List.length_pos.mpr hy0
      have hzpos := List.length_pos.mpr hz0
      have hlen : s.toList.length = x.length + 1 + (y.length + 1 + z.length) := by
        rw [hs]
        simp [List.length_append]
        omega
      simp only [emailRegexTest, List.any_eq_true, List.mem_range, Bool.and_eq_true,
        decide_eq_true_eq, beq_iff_eq]
      refine ⟨x.length, by omega, x.length + 1 + y.length, by omega,
        ⟨⟨⟨⟨⟨⟨hxpos, by omega⟩, by omega⟩, ?_⟩, ?_⟩, ?_⟩, ?_⟩, ?_⟩
      · rw [hs, List.get?_append_right (le_refl x.length), Nat.sub_self]
        rfl
      · rw [hs, show x ++ '@' :: (y ++ '.' :: z) = (x ++ '@' :: y) ++ '.' :: z from by simp]
        have hlen2 : (x ++ '@' :: y).length = x.length + 1 + y.length := by
          simp
          omega
        rw [List.get?_append_right (by rw [hlen2]), hlen2, Nat.sub_self]
        rfl
      · rw [hs, List.take_left]
        exact hxa
      · rw [hs, show x.length + 1 + y.length - x.length - 1 = y.length from by omega]
        have hdrop : (x ++ '@' :: (y ++ '.' :: z)).drop (x.length + 1) = y ++ '.' :: z := by
          rw [show x ++ '@' :: (y ++ '.' :: z) = (x ++ ['@']) ++ (y ++ '.' :: z) from by simp]
          rw [show x.length + 1 = (x ++ ['@']).length from by simp]
          exact List.drop_left _ _
        rw [hdrop, List.take_left]
        exact hya
      · rw [hs]
        rw [show x ++ '@' :: (y ++ '.' :: z) = (x ++ '@' :: y ++ ['.']) ++ z from by simp]
        rw [show x.length + 1 + y.length + 1 = (x ++ '@' :: y ++ ['.']).length from by
          simp
          omega]
        rw [List.drop_left]
        exact hza
  · intro nameValue messageValue hts
    by_cases h1 : (jsTrim nameValue).isEmpty = true <;>
    by_cases h2 : emailRegexTest s = true <;>
    by_cases h3 : (jsTrim messageValue).isEmpty = true <;>
    by_cases h4 : (jsTrim messageValue).length < 10 <;>
      simp [validateForm, h1, h2, h3, h4, hts, List.filter_append, List.filter] <;>
      rfl

/-- C4 amended witness: email_pattern_amended instantiated on the address
jane@example.com, which the regex accepts, so validation records no email
field error. -/
theorem email_pattern_amended_witness :
    ((validateForm "Jane" "jane@example.com" "Hello there, thanks").2.filter
        fun fe => fe.field == Field.emailField) = [] :=
  ((email_pattern_amended "jane@example.com").2 "Jane" "Hello there, thanks" rfl).mpr rfl

end Silvereye
